import Mathlib

/-!
Verification of the manifold 3D scene-builder server.

The repository contains two variants of the server source: a plain in-memory
variant and a persistence variant (versioned commits to a state file).  The
persistence variant is the one the specification's store/commit contract
describes, so the operations below are translated from it; the plain variant's
sandboxed-execution tool, which differs materially, is embedded separately as
the definitions suffixed _v1.

Modelling conventions:
- JavaScript numbers are modelled as rationals (ℚ); every concrete value in
  the claims is exactly representable, and the arithmetic involved (addition,
  subtraction, halving, multiplication by small scales) is float-exact on them.
- The objects record (a string-keyed JS object with insertion order) is an
  association list; writing an existing key replaces the value in place and
  writing a fresh key appends, matching the spread-update in the source.
- Optional payload fields (TypeScript `field?`) are Option values.
- The durable write performed by persistState is abstracted: commitState is
  modelled as incrementing the version counter, which is the part of the
  commit protocol the claims are about.
-/

deriving instance DecidableEq for Except

namespace Manifold

/-- A 3-component vector, the Vec3 interface of the source. -/
structure Vec3 where
  x : ℚ
  y : ℚ
  z : ℚ
deriving DecidableEq, Repr

/-- The seven face labels of the source's Face type. -/
inductive Face where
  | top
  | bottom
  | left
  | right
  | front
  | back
  | center
deriving DecidableEq, Repr

/-- The kind tag of the SceneObject tagged union. -/
inductive ObjKind where
  | box
  | sphere
  | cylinder
  | cone
  | plane
deriving DecidableEq, Repr

/-- The kind-specific dimension fields of the SceneObject tagged union:
box carries width/height/depth, sphere a radius, cylinder and cone a radius
and height, plane width/depth. -/
inductive ObjGeom where
  | box (width height depth : ℚ)
  | sphere (radius : ℚ)
  | cylinder (radius height : ℚ)
  | cone (radius height : ℚ)
  | plane (width depth : ℚ)
deriving DecidableEq, Repr

/-- A scene object: the common fields of every variant of the source's
SceneObject union, plus the kind-specific dimensions. -/
structure SceneObject where
  id : String
  name : String
  position : Vec3
  scale : Vec3
  color : String
  geom : ObjGeom
deriving DecidableEq, Repr

/-- A connection record, as in the source's Connection interface. -/
structure Connection where
  from_id : String
  face_a : Face
  to_id : String
  face_b : Face
deriving DecidableEq, Repr

/-- The objects record: a string-keyed, insertion-ordered map. -/
abbrev ObjMap := List (String × SceneObject)

/-- The SceneState interface: objects record plus connections list. -/
structure SceneState where
  objects : ObjMap
  connections : List Connection
deriving DecidableEq, Repr

/-- The in-memory server state of the persistence variant: the scene graph,
the identifier counter (idCounter, seeded 1) and the version counter
(sceneVersion, seeded 0). -/
structure Store where
  scene : SceneState
  idCounter : Nat
  version : Nat
deriving DecidableEq, Repr

/-- Property lookup on the objects record: the first entry with the key. -/
def lookupObj : ObjMap → String → Option SceneObject
  | [], _ => none
  | (k, v) :: rest, key => if k = key then some v else lookupObj rest key

/-- Record update by spread, as in the source's assignments to
sceneState.objects: an existing key keeps its slot and gets the new value,
a fresh key is appended at the end. -/
def setKey : ObjMap → String → SceneObject → ObjMap
  | [], key, v => [(key, v)]
  | (k, w) :: rest, key, v =>
      if k = key then (key, v) :: rest else (k, w) :: setKey rest key v

/-- Key removal by rest-destructuring, preserving the order of the others. -/
def eraseKey (m : ObjMap) (key : String) : ObjMap :=
  m.filter (fun p => p.1 ≠ key)

-- ---------------------------------------------------------------------------
-- Geometry helpers (getHalfExtents, faceOffset, computeConnectPos)
-- ---------------------------------------------------------------------------

/-- getHalfExtents from the source: half bounding size per axis, after the
per-axis scale is applied. -/
def getHalfExtents (o : SceneObject) : Vec3 :=
  match o.geom with
  | .box w h d => ⟨w / 2 * o.scale.x, h / 2 * o.scale.y, d / 2 * o.scale.z⟩
  | .sphere r => ⟨r * o.scale.x, r * o.scale.y, r * o.scale.z⟩
  | .cylinder r h => ⟨r * o.scale.x, h / 2 * o.scale.y, r * o.scale.z⟩
  | .cone r h => ⟨r * o.scale.x, h / 2 * o.scale.y, r * o.scale.z⟩
  | .plane w d => ⟨w / 2 * o.scale.x, 0, d / 2 * o.scale.z⟩

/-- faceOffset from the source: the local offset of a face's contact point. -/
def faceOffset (o : SceneObject) (face : Face) : Vec3 :=
  let h := getHalfExtents o
  match face with
  | .top => ⟨0, h.y, 0⟩
  | .bottom => ⟨0, -h.y, 0⟩
  | .left => ⟨-h.x, 0, 0⟩
  | .right => ⟨h.x, 0, 0⟩
  | .front => ⟨0, 0, h.z⟩
  | .back => ⟨0, 0, -h.z⟩
  | .center => ⟨0, 0, 0⟩

/-- computeConnectPos from the source:
to.position + faceOffset(to, face_b) - faceOffset(from, face_a). -/
def computeConnectPos (fromObj : SceneObject) (fa : Face)
    (toObj : SceneObject) (fb : Face) : Vec3 :=
  let a := faceOffset fromObj fa
  let b := faceOffset toObj fb
  ⟨toObj.position.x + b.x - a.x,
   toObj.position.y + b.y - a.y,
   toObj.position.z + b.z - a.z⟩

-- ---------------------------------------------------------------------------
-- Validation helpers
-- ---------------------------------------------------------------------------

/-- A hexadecimal digit, as accepted by the character class [0-9a-fA-F]. -/
def isHexDigitChar (c : Char) : Bool :=
  (('0' ≤ c) && (c ≤ '9')) || (('a' ≤ c) && (c ≤ 'f')) || (('A' ≤ c) && (c ≤ 'F'))

/-- isHexColor from the source: the anchored test of the regular expression
matching exactly a hash sign followed by six hexadecimal digits. -/
def isHexColor (s : String) : Bool :=
  match s.data with
  | '#' :: rest => (rest.length == 6) && rest.all isHexDigitChar
  | _ => false

/-- The color guard condition of add_object and update_object, including the
JavaScript truthiness test: the branch fires only when a color was supplied,
it is not the empty string (falsy), and isHexColor rejects it. -/
def colorCheckFails (color : Option String) : Bool :=
  match color with
  | none => false
  | some c => (c != "") && !(isHexColor c)

-- ---------------------------------------------------------------------------
-- Store operations (persistence variant)
-- ---------------------------------------------------------------------------

/-- nextId from the source: the identifier string for a counter value. -/
def mkId (n : Nat) : String := "obj_" ++ toString n

/-- The typed failures the operations return through error(...). -/
inductive OpError where
  | notFound
  | invalidColor
deriving DecidableEq, Repr

/-- commitState from the persistence variant: increments sceneVersion and
durably writes the record (the write itself is abstracted, see the header). -/
def commitState (st : Store) : Store :=
  { st with version := st.version + 1 }

/-- The params payload of add_object. -/
structure AddParams where
  name : String
  position : Option Vec3
  scale : Option Vec3
  color : Option String
  width : Option ℚ
  height : Option ℚ
  depth : Option ℚ
  radius : Option ℚ
deriving DecidableEq, Repr

/-- The kind-specific dimension record built by add_object's switch, with the
documented per-kind defaults for absent fields. -/
def defaultGeom (t : ObjKind) (p : AddParams) : ObjGeom :=
  match t with
  | .box => .box (p.width.getD 100) (p.height.getD 100) (p.depth.getD 100)
  | .sphere => .sphere (p.radius.getD 50)
  | .cylinder => .cylinder (p.radius.getD 25) (p.height.getD 100)
  | .cone => .cone (p.radius.getD 25) (p.height.getD 100)
  | .plane => .plane (p.width.getD 200) (p.depth.getD 200)

/-- add_object from the persistence variant: color guard first, then fresh id
allocation, insertion and commit.  The returned pair is the (possibly
unchanged) server state together with the tool's result. -/
def add_object (t : ObjKind) (p : AddParams) (st : Store) :
    Store × Except OpError String :=
  if colorCheckFails p.color then (st, .error .invalidColor)
  else
    let id := mkId st.idCounter
    let obj : SceneObject :=
      { id := id
        name := p.name
        position := p.position.getD ⟨0, 0, 0⟩
        scale := p.scale.getD ⟨1, 1, 1⟩
        color := p.color.getD "#888888"
        geom := defaultGeom t p }
    let st' : Store :=
      { scene :=
          { objects := setKey st.scene.objects id obj
            connections := st.scene.connections }
        idCounter := st.idCounter + 1
        version := st.version }
    (commitState st', .ok id)

/-- The params payload of update_object; every field optional. -/
structure UpdateParams where
  name : Option String
  position : Option Vec3
  scale : Option Vec3
  color : Option String
  width : Option ℚ
  height : Option ℚ
  depth : Option ℚ
  radius : Option ℚ
deriving DecidableEq, Repr

/-- The dimension part of update_object: a supplied dimension is applied only
when the target object's kind carries that field, mirroring the source's
"field in nextObj" guards. -/
def applyDims (g : ObjGeom) (w h d r : Option ℚ) : ObjGeom :=
  match g with
  | .box w0 h0 d0 => .box (w.getD w0) (h.getD h0) (d.getD d0)
  | .sphere r0 => .sphere (r.getD r0)
  | .cylinder r0 h0 => .cylinder (r.getD r0) (h.getD h0)
  | .cone r0 h0 => .cone (r.getD r0) (h.getD h0)
  | .plane w0 d0 => .plane (w.getD w0) (d.getD d0)

/-- update_object from the persistence variant: assertObject first (its throw
is the not-found failure), then the color guard, then the partial update of
exactly the supplied fields, then commit. -/
def update_object (id : String) (p : UpdateParams) (st : Store) :
    Store × Except OpError String :=
  match lookupObj st.scene.objects id with
  | none => (st, .error .notFound)
  | some obj =>
    if colorCheckFails p.color then (st, .error .invalidColor)
    else
      let obj' : SceneObject :=
        { id := obj.id
          name := p.name.getD obj.name
          position := p.position.getD obj.position
          scale := p.scale.getD obj.scale
          color := p.color.getD obj.color
          geom := applyDims obj.geom p.width p.height p.depth p.radius }
      ({ scene :=
           { objects := setKey st.scene.objects id obj'
             connections := st.scene.connections }
         idCounter := st.idCounter
         version := st.version + 1 },
       .ok id)

/-- delete_object from the persistence variant: assertObject, then removal of
the object and of every connection referencing it, then commit. -/
def delete_object (id : String) (st : Store) : Store × Except OpError Unit :=
  match lookupObj st.scene.objects id with
  | none => (st, .error .notFound)
  | some _ =>
    ({ scene :=
         { objects := eraseKey st.scene.objects id
           connections :=
             st.scene.connections.filter
               (fun c => (c.from_id != id) && (c.to_id != id)) }
       idCounter := st.idCounter
       version := st.version + 1 },
     .ok ())

/-- connect from the persistence variant: both endpoints asserted, the new
position computed, the from object repositioned, the connection appended,
then commit.  The success payload is the new position. -/
def connect (from_id : String) (fa : Face) (to_id : String) (fb : Face)
    (st : Store) : Store × Except OpError Vec3 :=
  match lookupObj st.scene.objects from_id with
  | none => (st, .error .notFound)
  | some fromObj =>
    match lookupObj st.scene.objects to_id with
    | none => (st, .error .notFound)
    | some toObj =>
      let newPos := computeConnectPos fromObj fa toObj fb
      ({ scene :=
           { objects :=
               setKey st.scene.objects from_id { fromObj with position := newPos }
             connections :=
               st.scene.connections ++ [⟨from_id, fa, to_id, fb⟩] }
         idCounter := st.idCounter
         version := st.version + 1 },
       .ok newPos)

/-- clear_scene from the persistence variant: empty graph, counter reset to
1, then commit. -/
def clear_scene (st : Store) : Store :=
  commitState
    { scene := { objects := [], connections := [] }
      idCounter := 1
      version := st.version }

/-- get_scene_state from the persistence variant: a pure read returning the
scene and the version; no mutation, no commit. -/
def get_scene_state (st : Store) : SceneState × Nat :=
  (st.scene, st.version)

-- ---------------------------------------------------------------------------
-- Sandboxed execution (execute_code)
-- ---------------------------------------------------------------------------

/-- The objects field of the snapshot extracted from the sandbox: after the
JSON round trip it is either a string-keyed record of objects or some other
JSON value (number, string, boolean, array), which the source stores without
any structural check. -/
inductive SnapObjects where
  | map (m : ObjMap)
  | nonMap
deriving DecidableEq, Repr

/-- The connections field of the extracted snapshot: a list, or some other
JSON value, which the source's Array.isArray test replaces by the empty
list. -/
inductive SnapConnections where
  | list (l : List Connection)
  | nonList
deriving DecidableEq, Repr

/-- The observable outcome of running the untrusted script in the vm:
either it threw or exceeded the time budget (including a throw while the
JSON snapshot is being extracted), or it ran to completion leaving the two
allow-listed fields with the given extracted values. -/
inductive ScriptResult where
  | thrown
  | finished (objects : SnapObjects) (connections : SnapConnections)
deriving DecidableEq, Repr

/-- The result of the persistence variant's execute_code: on a script error
the canonical state is returned exactly as it was (no commit); on completion
the canonical graph is replaced by the merged snapshot — whose objects field
is stored as extracted, without validation — and committed.  The committed
constructor carries the merged objects value, the merged connections, and
the unchanged id counter and incremented version. -/
inductive ExecResult where
  | errored (st : Store)
  | committed (objects : SnapObjects) (connections : List Connection)
      (idCounter : Nat) (version : Nat)
deriving DecidableEq, Repr

set_option linter.unusedVariables false in
/-- execute_code from the persistence variant.  The env argument is the
value of the ENABLE_EXECUTE_CODE environment variable; this variant never
consults it — there is no disabled check in its body. -/
def execute_code (env : String) (res : ScriptResult) (st : Store) : ExecResult :=
  match res with
  | .thrown => .errored st
  | .finished o c =>
      .committed o
        (match c with
         | .list l => l
         | .nonList => [])
        st.idCounter (st.version + 1)

/-- The in-memory state of the first (plain) server variant: no version
counter. -/
structure Store1 where
  objects : ObjMap
  connections : List Connection
  idCounter : Nat
deriving DecidableEq, Repr

/-- The observable outcome of the first variant's vm run: a throw or
timeout, or completion with the two context fields, each possibly set to
undefined or null by the script (None), in which case the source's nullish
merge falls back to the previous canonical value. -/
inductive ScriptResultV1 where
  | thrown
  | finished (objects : Option SnapObjects) (connections : Option SnapConnections)
deriving DecidableEq, Repr

/-- The result of the first variant's execute_code: the disabled failure
(state untouched), a script error (state untouched), or the merge, which
stores both fields blindly (no Array.isArray test in this variant). -/
inductive ExecResultV1 where
  | disabled (st : Store1)
  | errored (st : Store1)
  | merged (objects : SnapObjects) (connections : SnapConnections) (idCounter : Nat)
deriving DecidableEq, Repr

/-- execute_code from the first server variant: unless the
ENABLE_EXECUTE_CODE environment variable equals the string true, the call
fails with the disabled error before any execution attempt; otherwise the
script runs and the nullish merge replaces the canonical fields. -/
def execute_code_v1 (env : String) (res : ScriptResultV1) (st : Store1) :
    ExecResultV1 :=
  if env ≠ "true" then .disabled st
  else
    match res with
    | .thrown => .errored st
    | .finished o c =>
        .merged (o.getD (.map st.objects)) (c.getD (.list st.connections))
          st.idCounter

-- ---------------------------------------------------------------------------
-- Lemmas about the objects record
-- ---------------------------------------------------------------------------

theorem lookupObj_setKey_self (m : ObjMap) (k : String) (v : SceneObject) :
    lookupObj (setKey m k v) k = some v := by
  induction m with
  | nil => simp [setKey, lookupObj]
  | cons p rest ih =>
    obtain ⟨k', w⟩ := p
    by_cases h : k' = k
    · simp [setKey, h, lookupObj]
    · simp [setKey, h, lookupObj, ih]

theorem lookupObj_setKey_ne (m : ObjMap) (k k' : String) (v : SceneObject)
    (h : k' ≠ k) : lookupObj (setKey m k v) k' = lookupObj m k' := by
  induction m with
  | nil => simp [setKey, lookupObj, Ne.symm h]
  | cons p rest ih =>
    obtain ⟨k₀, w⟩ := p
    by_cases h0 : k₀ = k
    · subst h0
      simp [setKey, lookupObj, Ne.symm h]
    · by_cases h1 : k₀ = k'
      · subst h1
        simp [setKey, h0, lookupObj]
      · simp [setKey, h0, lookupObj, h1, ih]

theorem setKey_lookup_eq (m : ObjMap) (k : String) (v : SceneObject)
    (h : lookupObj m k = some v) : setKey m k v = m := by
  induction m with
  | nil => simp [lookupObj] at h
  | cons p rest ih =>
    obtain ⟨k₀, w⟩ := p
    by_cases h0 : k₀ = k
    · subst h0
      simp [lookupObj] at h
      simp [setKey, h]
    · simp [lookupObj, h0] at h
      simp [setKey, h0, ih h]

theorem lookupObj_eraseKey_ne (m : ObjMap) (k k' : String) (h : k' ≠ k) :
    lookupObj (eraseKey m k) k' = lookupObj m k' := by
  induction m with
  | nil => simp [eraseKey, lookupObj]
  | cons p rest ih =>
    obtain ⟨k₀, w⟩ := p
    by_cases h0 : k₀ = k
    · have he : eraseKey ((k₀, w) :: rest) k = eraseKey rest k := by
        simp [eraseKey, List.filter_cons, h0]
      rw [he, ih]
      simp [lookupObj, h0, Ne.symm h]
    · have he : eraseKey ((k₀, w) :: rest) k = (k₀, w) :: eraseKey rest k := by
        simp [eraseKey, List.filter_cons, h0]
      rw [he]
      by_cases h1 : k₀ = k'
      · subst h1
        simp [lookupObj]
      · simp [lookupObj, h1, ih]

theorem lookupObj_isSome_setKey (m : ObjMap) (k k' : String) (v : SceneObject)
    (h : (lookupObj m k').isSome) : (lookupObj (setKey m k v) k').isSome := by
  by_cases hk : k' = k
  · subst hk
    simp [lookupObj_setKey_self]
  · rwa [lookupObj_setKey_ne m k k' v hk]

-- ---------------------------------------------------------------------------
-- Concrete stores used by witnesses and counterexamples
-- ---------------------------------------------------------------------------

/-- The freshly started server state: empty graph, idCounter 1, sceneVersion 0. -/
def emptyStore : Store := ⟨⟨[], []⟩, 1, 0⟩

/-- The spec scenario's first call: a box of width 200, height 20, depth 100. -/
def boxParams : AddParams :=
  ⟨"base", none, none, some "#cc0000", some 200, some 20, some 100, none⟩

/-- The spec scenario's second call: a cylinder of radius 10, height 100. -/
def cylParams : AddParams :=
  ⟨"post", none, none, some "#ffffff", none, some 100, none, some 10⟩

/-- The state after adding the box to a fresh server. -/
def scenStore1 : Store := (add_object .box boxParams emptyStore).1

/-- The state after adding the box and then the cylinder. -/
def scenStore2 : Store := (add_object .cylinder cylParams scenStore1).1

/-- The box object as stored by the scenario's first add. -/
def scenBox : SceneObject :=
  ⟨"obj_1", "base", ⟨0, 0, 0⟩, ⟨1, 1, 1⟩, "#cc0000", .box 200 20 100⟩

/-- The cylinder object as stored by the scenario's second add. -/
def scenCyl : SceneObject :=
  ⟨"obj_2", "post", ⟨0, 0, 0⟩, ⟨1, 1, 1⟩, "#ffffff", .cylinder 10 100⟩

-- ---------------------------------------------------------------------------
-- C1
-- ---------------------------------------------------------------------------

/-- C1: whenever both endpoints are present (the case from_id = to_id
included), connect succeeds, returns and stores as the from object's new
position exactly to.position + faceOffset(to, face_b) − faceOffset(from,
face_a) componentwise, appends exactly one connection record, changes no
other object, and leaves the connection list otherwise intact; concretely,
the spec scenario (box 200×20×100 at the origin, cylinder radius 10 height
100, connect cylinder bottom to box top at unit scales) allocates obj_1 and
obj_2 and leaves the cylinder at position (0, 60, 0). -/
theorem connect_resolves_faces :
    (∀ (st : Store) (fid tid : String) (fa fb : Face)
        (fromObj toObj : SceneObject),
      lookupObj st.scene.objects fid = some fromObj →
      lookupObj st.scene.objects tid = some toObj →
      (connect fid fa tid fb st).2 =
        .ok ⟨toObj.position.x + (faceOffset toObj fb).x - (faceOffset fromObj fa).x,
             toObj.position.y + (faceOffset toObj fb).y - (faceOffset fromObj fa).y,
             toObj.position.z + (faceOffset toObj fb).z - (faceOffset fromObj fa).z⟩ ∧
      lookupObj (connect fid fa tid fb st).1.scene.objects fid =
        some { fromObj with
                position :=
                  ⟨toObj.position.x + (faceOffset toObj fb).x - (faceOffset fromObj fa).x,
                   toObj.position.y + (faceOffset toObj fb).y - (faceOffset fromObj fa).y,
                   toObj.position.z + (faceOffset toObj fb).z - (faceOffset fromObj fa).z⟩ } ∧
      (∀ k, k ≠ fid →
        lookupObj (connect fid fa tid fb st).1.scene.objects k =
          lookupObj st.scene.objects k) ∧
      (connect fid fa tid fb st).1.scene.connections =
        st.scene.connections ++ [⟨fid, fa, tid, fb⟩]) ∧
    (add_object .box boxParams emptyStore).2 = .ok "obj_1" ∧
    (add_object .cylinder cylParams scenStore1).2 = .ok "obj_2" ∧
    (connect "obj_2" .bottom "obj_1" .top scenStore2).2 = .ok ⟨0, 60, 0⟩ ∧
    (lookupObj (connect "obj_2" .bottom "obj_1" .top scenStore2).1.scene.objects
        "obj_2").map SceneObject.position = some ⟨0, 60, 0⟩ := by
  constructor
  · intro st fid tid fa fb fromObj toObj hf ht
    have hpos : computeConnectPos fromObj fa toObj fb =
        ⟨toObj.position.x + (faceOffset toObj fb).x - (faceOffset fromObj fa).x,
         toObj.position.y + (faceOffset toObj fb).y - (faceOffset fromObj fa).y,
         toObj.position.z + (faceOffset toObj fb).z - (faceOffset fromObj fa).z⟩ := rfl
    refine ⟨?_, ?_, ?_, ?_⟩
    · simp [connect, hf, ht, hpos]
    · simp [connect, hf, ht, hpos, lookupObj_setKey_self]
    · intro k hk
      simp [connect, hf, ht]
      exact lookupObj_setKey_ne _ _ _ _ hk
    · simp [connect, hf, ht]
  · refine ⟨?_, ?_, ?_, ?_⟩
    · simp +decide [add_object, boxParams, emptyStore, colorCheckFails, mkId]
    · simp +decide [add_object, cylParams, scenStore1, boxParams, emptyStore,
        colorCheckFails, mkId, commitState, setKey, defaultGeom]
    · simp +decide [connect, scenStore2, scenStore1, emptyStore, add_object,
        boxParams, cylParams, colorCheckFails, mkId, commitState, setKey,
        lookupObj, defaultGeom, computeConnectPos, faceOffset, getHalfExtents]
      norm_num
    · simp +decide [connect, scenStore2, scenStore1, emptyStore, add_object,
        boxParams, cylParams, colorCheckFails, mkId, commitState, setKey,
        lookupObj, defaultGeom, computeConnectPos, faceOffset, getHalfExtents]
      norm_num

/-- Witness for C1: the general part applied to the concrete scenario store,
hypotheses discharged by evaluation. -/
theorem connect_resolves_faces_witness :
    lookupObj scenStore2.scene.objects "obj_2" = some scenCyl ∧
    lookupObj scenStore2.scene.objects "obj_1" = some scenBox ∧
    (connect "obj_2" .bottom "obj_1" .top scenStore2).2 = .ok ⟨0, 60, 0⟩ := by
  have h2 : lookupObj scenStore2.scene.objects "obj_2" = some scenCyl := by
    simp +decide [scenStore2, scenStore1, emptyStore, add_object, boxParams,
      cylParams, colorCheckFails, mkId, commitState, setKey, lookupObj,
      defaultGeom, scenCyl]
  have h1 : lookupObj scenStore2.scene.objects "obj_1" = some scenBox := by
    simp +decide [scenStore2, scenStore1, emptyStore, add_object, boxParams,
      cylParams, colorCheckFails, mkId, commitState, setKey, lookupObj,
      defaultGeom, scenBox]
  refine ⟨h2, h1, ?_⟩
  have hmain :=
    (connect_resolves_faces.1 scenStore2 "obj_2" "obj_1" .bottom .top
      scenCyl scenBox h2 h1).1
  rw [hmain]
  norm_num [faceOffset, getHalfExtents, scenBox, scenCyl]

-- ---------------------------------------------------------------------------
-- C2
-- ---------------------------------------------------------------------------

/-- C2 (amended): in the first server variant, whenever ENABLE_EXECUTE_CODE
is anything other than the string true (the default), every execute_code
call fails with the disabled error before any execution attempt and the
state is returned untouched; the persistence variant's execute_code,
however, performs no such check — its outcome is completely independent of
the configuration value. -/
theorem sandbox_disabled_amended :
    (∀ (env : String), env ≠ "true" →
      ∀ (res : ScriptResultV1) (st : Store1),
        execute_code_v1 env res st = .disabled st) ∧
    (∀ (env env' : String) (res : ScriptResult) (st : Store),
      execute_code env res st = execute_code env' res st) := by
  constructor
  · intro env h res st
    simp [execute_code_v1, h]
  · intro env env' res st
    cases res <;> rfl

/-- Witness for C2: a concrete disabled call on a fresh first-variant state
is rejected with the state untouched. -/
theorem sandbox_disabled_amended_witness :
    ("" : String) ≠ "true" ∧
    execute_code_v1 "" .thrown ⟨[], [], 1⟩ = .disabled ⟨[], [], 1⟩ :=
  ⟨by decide, sandbox_disabled_amended.1 "" (by decide) .thrown ⟨[], [], 1⟩⟩

/-- Counterexample for C2 as stated: with the feature not enabled (empty
environment value), the persistence variant's execute_code still runs the
script and replaces the graph — here a non-empty graph is wholesale
replaced by an empty snapshot and committed, rather than failing with
SandboxDisabled with the graph unchanged. -/
theorem sandbox_disabled_cex :
    execute_code "" (.finished (.map []) (.list [])) scenStore1 =
      .committed (.map []) [] scenStore1.idCounter (scenStore1.version + 1) ∧
    scenStore1.scene.objects ≠ [] := by
  constructor
  · rfl
  · simp +decide [scenStore1, emptyStore, add_object, boxParams,
      colorCheckFails, mkId, commitState, setKey]

-- ---------------------------------------------------------------------------
-- C3
-- ---------------------------------------------------------------------------

/-- C3 (amended): add_object performs no validation of scale or dimension
values at all — whenever the color guard passes, the operation succeeds and
the object is inserted with the supplied scale and the supplied (or
defaulted) dimensions stored exactly as given, non-positive values
included; nothing is clamped and no ValidationError failure exists. -/
theorem add_accepts_any_dimensions :
    ∀ (t : ObjKind) (p : AddParams) (st : Store),
      colorCheckFails p.color = false →
      (add_object t p st).2 = .ok (mkId st.idCounter) ∧
      ∃ obj,
        lookupObj (add_object t p st).1.scene.objects (mkId st.idCounter) =
          some obj ∧
        obj.scale = p.scale.getD ⟨1, 1, 1⟩ ∧
        obj.geom = defaultGeom t p := by
  intro t p st h
  refine ⟨by simp [add_object, h], ?_⟩
  refine ⟨⟨mkId st.idCounter, p.name, p.position.getD ⟨0, 0, 0⟩,
      p.scale.getD ⟨1, 1, 1⟩, p.color.getD "#888888", defaultGeom t p⟩,
    ?_, rfl, rfl⟩
  simp [add_object, h, commitState, lookupObj_setKey_self]

/-- Witness for C3 (amended): a box with a negative width is accepted and
stored verbatim. -/
theorem add_accepts_any_dimensions_witness :
    colorCheckFails (AddParams.mk "b" none none none (some (-5)) none none none).color
        = false ∧
    (add_object .box ⟨"b", none, none, none, some (-5), none, none, none⟩
        emptyStore).2 = .ok (mkId emptyStore.idCounter) := by
  refine ⟨by decide, ?_⟩
  exact (add_accepts_any_dimensions .box
    ⟨"b", none, none, none, some (-5), none, none, none⟩ emptyStore (by decide)).1

/-- Counterexample for C3 as stated: an add with a non-positive dimension
(box width −5) does not fail with ValidationError; it succeeds and the
object is inserted into the graph carrying the negative width. -/
theorem add_validation_cex :
    (add_object .box ⟨"b", none, none, none, some (-5), none, none, none⟩
        emptyStore).2 = .ok "obj_1" ∧
    lookupObj (add_object .box ⟨"b", none, none, none, some (-5), none, none, none⟩
        emptyStore).1.scene.objects "obj_1" =
      some ⟨"obj_1", "b", ⟨0, 0, 0⟩, ⟨1, 1, 1⟩, "#888888", .box (-5) 100 100⟩ := by
  constructor
  · simp +decide [add_object, emptyStore, colorCheckFails, mkId]
  · simp +decide [add_object, emptyStore, colorCheckFails, mkId, setKey,
      lookupObj, defaultGeom, commitState]

-- ---------------------------------------------------------------------------
-- C4
-- ---------------------------------------------------------------------------

/-- C4 (amended): with the feature enabled, a script that throws or exceeds
the time budget makes the persistence variant's execute_code fail with the
execution error and leaves the canonical store exactly as it was (no
commit); a script that runs to completion always succeeds — there is no
structural-validation failure: the extracted objects field is stored as
extracted without validation, and a non-list connections field is silently
coerced to the empty list, the merge being committed with the version
advanced by one. -/
theorem sandbox_merge_amended :
    (∀ (env : String) (st : Store),
      execute_code env .thrown st = .errored st) ∧
    (∀ (env : String) (o : SnapObjects) (l : List Connection) (st : Store),
      execute_code env (.finished o (.list l)) st =
        .committed o l st.idCounter (st.version + 1)) ∧
    (∀ (env : String) (o : SnapObjects) (st : Store),
      execute_code env (.finished o .nonList) st =
        .committed o [] st.idCounter (st.version + 1)) := by
  refine ⟨fun env st => rfl, fun env o l st => rfl, fun env o st => rfl⟩

/-- Counterexample for C4 as stated: a store with one connection, and a
script that completes leaving a non-list connections field.  The claim
requires a SandboxExecutionError with the graph exactly as before; the code
instead succeeds, commits, and coerces the connections to the empty list,
so the canonical connection list changes. -/
theorem sandbox_merge_cex :
    (connect "obj_2" .bottom "obj_1" .top scenStore2).1.scene.connections ≠ [] ∧
    execute_code "true"
        (.finished (.map []) .nonList)
        (connect "obj_2" .bottom "obj_1" .top scenStore2).1 =
      .committed (.map []) []
        (connect "obj_2" .bottom "obj_1" .top scenStore2).1.idCounter
        ((connect "obj_2" .bottom "obj_1" .top scenStore2).1.version + 1) := by
  constructor
  · simp +decide [connect, scenStore2, scenStore1, emptyStore, add_object,
      boxParams, cylParams, colorCheckFails, mkId, commitState, setKey,
      lookupObj, defaultGeom]
  · rfl

-- ---------------------------------------------------------------------------
-- C5
-- ---------------------------------------------------------------------------

/-- C5: every mutating operation that succeeds performs exactly one commit,
advancing the version counter by exactly one; every operation that fails
returns the store completely untouched (version included), and the
read-only scene query returns the current scene and version without any
mutation or commit. -/
theorem commit_version_discipline :
    (∀ (t : ObjKind) (p : AddParams) (st : Store) (id : String),
      (add_object t p st).2 = .ok id →
      (add_object t p st).1.version = st.version + 1) ∧
    (∀ (t : ObjKind) (p : AddParams) (st : Store) (e : OpError),
      (add_object t p st).2 = .error e → (add_object t p st).1 = st) ∧
    (∀ (id : String) (p : UpdateParams) (st : Store) (rid : String),
      (update_object id p st).2 = .ok rid →
      (update_object id p st).1.version = st.version + 1) ∧
    (∀ (id : String) (p : UpdateParams) (st : Store) (e : OpError),
      (update_object id p st).2 = .error e → (update_object id p st).1 = st) ∧
    (∀ (id : String) (st : Store),
      (delete_object id st).2 = .ok () →
      (delete_object id st).1.version = st.version + 1) ∧
    (∀ (id : String) (st : Store) (e : OpError),
      (delete_object id st).2 = .error e → (delete_object id st).1 = st) ∧
    (∀ (a : String) (fa : Face) (b : String) (fb : Face) (st : Store) (v : Vec3),
      (connect a fa b fb st).2 = .ok v →
      (connect a fa b fb st).1.version = st.version + 1) ∧
    (∀ (a : String) (fa : Face) (b : String) (fb : Face) (st : Store) (e : OpError),
      (connect a fa b fb st).2 = .error e → (connect a fa b fb st).1 = st) ∧
    (∀ st : Store, (clear_scene st).version = st.version + 1) ∧
    (∀ (env : String) (st : Store), execute_code env .thrown st = .errored st) ∧
    (∀ (env : String) (o : SnapObjects) (c : SnapConnections) (st : Store),
      ∃ l, execute_code env (.finished o c) st =
        .committed o l st.idCounter (st.version + 1)) ∧
    (∀ st : Store, get_scene_state st = (st.scene, st.version)) := by
  refine ⟨?_, ?_, ?_, ?_, ?_, ?_, ?_, ?_, ?_, ?_, ?_, ?_⟩
  · intro t p st id h
    by_cases hc : colorCheckFails p.color
    · simp [add_object, hc] at h
    · simp [add_object, hc, commitState]
  · intro t p st e h
    by_cases hc : colorCheckFails p.color
    · simp [add_object, hc]
    · simp [add_object, hc] at h
  · intro id p st rid h
    cases hl : lookupObj st.scene.objects id with
    | none => simp [update_object, hl] at h
    | some obj =>
      by_cases hc : colorCheckFails p.color
      · simp [update_object, hl, hc] at h
      · simp [update_object, hl, hc]
  · intro id p st e h
    cases hl : lookupObj st.scene.objects id with
    | none => simp [update_object, hl]
    | some obj =>
      by_cases hc : colorCheckFails p.color
      · simp [update_object, hl, hc]
      · simp [update_object, hl, hc] at h
  · intro id st h
    cases hl : lookupObj st.scene.objects id with
    | none => simp [delete_object, hl] at h
    | some obj => simp [delete_object, hl]
  · intro id st e h
    cases hl : lookupObj st.scene.objects id with
    | none => simp [delete_object, hl]
    | some obj => simp [delete_object, hl] at h
  · intro a fa b fb st v h
    cases hl : lookupObj st.scene.objects a with
    | none => simp [connect, hl] at h
    | some fo =>
      cases hl' : lookupObj st.scene.objects b with
      | none => simp [connect, hl, hl'] at h
      | some to_ => simp [connect, hl, hl']
  · intro a fa b fb st e h
    cases hl : lookupObj st.scene.objects a with
    | none => simp [connect, hl]
    | some fo =>
      cases hl' : lookupObj st.scene.objects b with
      | none => simp [connect, hl, hl']
      | some to_ => simp [connect, hl, hl'] at h
  · intro st
    simp [clear_scene, commitState]
  · intro env st
    rfl
  · intro env o c st
    cases c with
    | list l => exact ⟨l, rfl⟩
    | nonList => exact ⟨[], rfl⟩
  · intro st
    rfl

/-- Witness for C5: the first scenario add on a fresh store commits once
(version 0 to 1), and a failing update on the same fresh store leaves it
untouched. -/
theorem commit_version_discipline_witness :
    (add_object .box boxParams emptyStore).1.version = emptyStore.version + 1 ∧
    (update_object "ghost" ⟨none, none, none, none, none, none, none, none⟩
        emptyStore).1 = emptyStore := by
  constructor
  · exact commit_version_discipline.1 .box boxParams emptyStore "obj_1"
      (by simp +decide [add_object, boxParams, emptyStore, colorCheckFails, mkId])
  · exact commit_version_discipline.2.2.2.1 "ghost"
      ⟨none, none, none, none, none, none, none, none⟩ emptyStore .notFound
      (by simp +decide [update_object, emptyStore, lookupObj])

-- ---------------------------------------------------------------------------
-- C6
-- ---------------------------------------------------------------------------

/-- C6 (amended): every non-empty color string that fails the hex pattern
makes add_object and (on an existing object) update_object fail with
InvalidColor before any state change — the store, its identifier counter
and its version are returned exactly as they were; consequently every color
stored by a successful add matches the pattern or is the empty string,
which the JavaScript truthiness guard exempts from validation and stores
as supplied. -/
theorem color_validation_amended :
    (∀ (t : ObjKind) (p : AddParams) (c : String) (st : Store),
      p.color = some c → c ≠ "" → isHexColor c = false →
      add_object t p st = (st, .error .invalidColor)) ∧
    (∀ (id : String) (p : UpdateParams) (c : String) (st : Store)
        (obj : SceneObject),
      lookupObj st.scene.objects id = some obj →
      p.color = some c → c ≠ "" → isHexColor c = false →
      update_object id p st = (st, .error .invalidColor)) ∧
    (∀ (t : ObjKind) (p : AddParams) (st : Store) (id : String),
      (add_object t p st).2 = .ok id →
      ∃ obj,
        lookupObj (add_object t p st).1.scene.objects (mkId st.idCounter) =
          some obj ∧
        obj.color = p.color.getD "#888888" ∧
        (obj.color = "" ∨ isHexColor obj.color = true)) := by
  refine ⟨?_, ?_, ?_⟩
  · intro t p c st hc hne hhex
    have : colorCheckFails p.color = true := by
      simp [colorCheckFails, hc, hne, hhex]
    simp [add_object, this]
  · intro id p c st obj hl hc hne hhex
    have : colorCheckFails p.color = true := by
      simp [colorCheckFails, hc, hne, hhex]
    simp [update_object, hl, this]
  · intro t p st id h
    have hc : colorCheckFails p.color = false := by
      by_contra hcc
      simp [add_object, eq_true_of_ne_false hcc] at h
    refine ⟨⟨mkId st.idCounter, p.name, p.position.getD ⟨0, 0, 0⟩,
        p.scale.getD ⟨1, 1, 1⟩, p.color.getD "#888888", defaultGeom t p⟩,
      ?_, rfl, ?_⟩
    · simp [add_object, hc, commitState, lookupObj_setKey_self]
    · cases hcol : p.color with
      | none =>
        right
        show isHexColor "#888888" = true
        decide
      | some c =>
        by_cases hne : c = ""
        · simp [hcol, hne]
        · right
          simp [colorCheckFails, hcol, hne] at hc
          simpa [hcol] using hc

/-- Witness for C6 (amended): the malformed color string zzz is rejected by
add_object on a fresh store with the state unchanged. -/
theorem color_validation_amended_witness :
    isHexColor "zzz" = false ∧
    add_object .box ⟨"b", none, none, some "zzz", none, none, none, none⟩
        emptyStore = (emptyStore, .error .invalidColor) := by
  refine ⟨by decide, ?_⟩
  exact color_validation_amended.1 .box
    ⟨"b", none, none, some "zzz", none, none, none, none⟩ "zzz" emptyStore
    rfl (by decide) (by decide)

/-- Counterexample for C6 as stated: the empty string does not match the
hex pattern, yet an add supplying it succeeds — the truthiness guard skips
validation — and the empty string is stored as the object's color. -/
theorem color_validation_cex :
    isHexColor "" = false ∧
    (add_object .box ⟨"b", none, none, some "", none, none, none, none⟩
        emptyStore).2 = .ok "obj_1" ∧
    (lookupObj (add_object .box ⟨"b", none, none, some "", none, none, none, none⟩
          emptyStore).1.scene.objects "obj_1").map SceneObject.color =
      some "" := by
  refine ⟨by decide, ?_, ?_⟩
  · simp +decide [add_object, emptyStore, colorCheckFails, mkId]
  · simp +decide [add_object, emptyStore, colorCheckFails, mkId, setKey,
      lookupObj, commitState]

-- ---------------------------------------------------------------------------
-- C7
-- ---------------------------------------------------------------------------

/-- Referential integrity of a scene: every connection's endpoints name
objects present in the objects record. -/
def wellFormed (s : SceneState) : Bool :=
  s.connections.all fun c =>
    (lookupObj s.objects c.from_id).isSome && (lookupObj s.objects c.to_id).isSome

/-- The scenario store after the connect call: one connection recorded. -/
def connectedStore : Store := (connect "obj_2" .bottom "obj_1" .top scenStore2).1

theorem wf_add (t : ObjKind) (p : AddParams) (st : Store)
    (h : wellFormed st.scene = true) :
    wellFormed (add_object t p st).1.scene = true := by
  by_cases hc : colorCheckFails p.color
  · simpa [add_object, hc] using h
  · simp only [add_object, hc, Bool.false_eq_true, if_false, commitState]
    simp only [wellFormed, List.all_eq_true, Bool.and_eq_true] at h ⊢
    intro c hcmem
    obtain ⟨h1, h2⟩ := h c hcmem
    exact ⟨lookupObj_isSome_setKey _ _ _ _ h1, lookupObj_isSome_setKey _ _ _ _ h2⟩

theorem wf_update (id : String) (p : UpdateParams) (st : Store)
    (h : wellFormed st.scene = true) :
    wellFormed (update_object id p st).1.scene = true := by
  cases hl : lookupObj st.scene.objects id with
  | none => simpa [update_object, hl] using h
  | some obj =>
    by_cases hc : colorCheckFails p.color
    · simpa [update_object, hl, hc] using h
    · simp only [update_object, hl, hc, Bool.false_eq_true, if_false]
      simp only [wellFormed, List.all_eq_true, Bool.and_eq_true] at h ⊢
      intro c hcmem
      obtain ⟨h1, h2⟩ := h c hcmem
      exact ⟨lookupObj_isSome_setKey _ _ _ _ h1, lookupObj_isSome_setKey _ _ _ _ h2⟩

theorem wf_delete (id : String) (st : Store)
    (h : wellFormed st.scene = true) :
    wellFormed (delete_object id st).1.scene = true := by
  cases hl : lookupObj st.scene.objects id with
  | none => simpa [delete_object, hl] using h
  | some obj =>
    simp only [delete_object, hl]
    simp only [wellFormed, List.all_eq_true, Bool.and_eq_true] at h ⊢
    intro c hcmem
    have hcmem' : c ∈ st.scene.connections := List.mem_of_mem_filter hcmem
    have hcond := List.of_mem_filter hcmem
    simp only [Bool.and_eq_true, bne_iff_ne, ne_eq] at hcond
    obtain ⟨h1, h2⟩ := h c hcmem'
    obtain ⟨hf, ht⟩ := hcond
    rw [lookupObj_eraseKey_ne _ _ _ hf, lookupObj_eraseKey_ne _ _ _ ht]
    exact ⟨h1, h2⟩

theorem wf_delete_cascade (id : String) (st : Store)
    (h : wellFormed st.scene = true) :
    ∀ c ∈ (delete_object id st).1.scene.connections,
      c.from_id ≠ id ∧ c.to_id ≠ id := by
  cases hl : lookupObj st.scene.objects id with
  | none =>
    intro c hcmem
    simp only [delete_object, hl] at hcmem
    simp only [wellFormed, List.all_eq_true, Bool.and_eq_true] at h
    obtain ⟨h1, h2⟩ := h c hcmem
    constructor
    · intro he
      rw [he, hl] at h1
      simp at h1
    · intro he
      rw [he, hl] at h2
      simp at h2
  | some obj =>
    intro c hcmem
    simp only [delete_object, hl] at hcmem
    have hcond := List.of_mem_filter hcmem
    simp only [Bool.and_eq_true, bne_iff_ne, ne_eq] at hcond
    exact hcond

theorem wf_connect (a : String) (fa : Face) (b : String) (fb : Face)
    (st : Store) (h : wellFormed st.scene = true) :
    wellFormed (connect a fa b fb st).1.scene = true := by
  cases hl : lookupObj st.scene.objects a with
  | none => simpa [connect, hl] using h
  | some fo =>
    cases hl' : lookupObj st.scene.objects b with
    | none => simpa [connect, hl, hl'] using h
    | some to_ =>
      simp only [connect, hl, hl']
      simp only [wellFormed, List.all_eq_true, Bool.and_eq_true] at h ⊢
      intro c hcmem
      rw [List.mem_append] at hcmem
      rcases hcmem with hold | hnew
      · obtain ⟨h1, h2⟩ := h c hold
        exact ⟨lookupObj_isSome_setKey _ _ _ _ h1, lookupObj_isSome_setKey _ _ _ _ h2⟩
      · rw [List.mem_singleton] at hnew
        subst hnew
        refine ⟨?_, ?_⟩
        · simp [lookupObj_setKey_self]
        · apply lookupObj_isSome_setKey
          simp [hl']

/-- C7 (amended): referential integrity is preserved by add, update, delete,
connect and clear — in particular delete removes, atomically with the
object, every connection that references the deleted identifier — and a
failing sandboxed execute leaves the store untouched; a successful
sandboxed execute, however, is not covered: the merge performs no
referential check on the extracted snapshot (see the counterexample). -/
theorem referential_integrity_amended :
    (∀ (t : ObjKind) (p : AddParams) (st : Store),
      wellFormed st.scene = true → wellFormed (add_object t p st).1.scene = true) ∧
    (∀ (id : String) (p : UpdateParams) (st : Store),
      wellFormed st.scene = true → wellFormed (update_object id p st).1.scene = true) ∧
    (∀ (id : String) (st : Store),
      wellFormed st.scene = true → wellFormed (delete_object id st).1.scene = true) ∧
    (∀ (id : String) (st : Store),
      wellFormed st.scene = true →
      ∀ c ∈ (delete_object id st).1.scene.connections,
        c.from_id ≠ id ∧ c.to_id ≠ id) ∧
    (∀ (a : String) (fa : Face) (b : String) (fb : Face) (st : Store),
      wellFormed st.scene = true → wellFormed (connect a fa b fb st).1.scene = true) ∧
    (∀ st : Store, wellFormed (clear_scene st).scene = true) ∧
    (∀ (env : String) (st : Store), execute_code env .thrown st = .errored st) :=
  ⟨wf_add, wf_update, wf_delete, wf_delete_cascade, wf_connect,
    fun st => by simp [clear_scene, commitState, wellFormed],
    fun env st => rfl⟩

/-- Witness for C7 (amended): the scenario store with its recorded
connection is well formed, and deleting obj_1 keeps it well formed while
removing the connection referencing obj_1. -/
theorem referential_integrity_amended_witness :
    wellFormed connectedStore.scene = true ∧
    wellFormed (delete_object "obj_1" connectedStore).1.scene = true ∧
    (delete_object "obj_1" connectedStore).1.scene.connections = [] := by
  have hwf : wellFormed connectedStore.scene = true := by
    simp +decide [wellFormed, connectedStore, connect, scenStore2, scenStore1,
      emptyStore, add_object, boxParams, cylParams, colorCheckFails, mkId,
      commitState, setKey, lookupObj, defaultGeom]
  refine ⟨hwf, referential_integrity_amended.2.2.1 "obj_1" connectedStore hwf, ?_⟩
  simp +decide [delete_object, connectedStore, connect, scenStore2, scenStore1,
    emptyStore, add_object, boxParams, cylParams, colorCheckFails, mkId,
    commitState, setKey, lookupObj, eraseKey, defaultGeom]

/-- Counterexample for C7 as stated: starting from a well-formed graph, a
successful sandboxed execute merges back a snapshot whose connection
references objects absent from its objects record; the commit happens and
the resulting graph violates referential integrity. -/
theorem referential_integrity_cex :
    wellFormed scenStore1.scene = true ∧
    execute_code "true"
        (.finished (.map []) (.list [⟨"ghost", .top, "ghost2", .bottom⟩]))
        scenStore1 =
      .committed (.map []) [⟨"ghost", .top, "ghost2", .bottom⟩]
        scenStore1.idCounter (scenStore1.version + 1) ∧
    wellFormed ⟨[], [⟨"ghost", .top, "ghost2", .bottom⟩]⟩ = false := by
  refine ⟨?_, rfl, by decide⟩
  simp +decide [wellFormed, scenStore1, emptyStore, add_object, boxParams,
    colorCheckFails, mkId, commitState, setKey]

-- ---------------------------------------------------------------------------
-- C8
-- ---------------------------------------------------------------------------

theorem applyDims_none (g : ObjGeom) : applyDims g none none none none = g := by
  cases g <;> rfl

/-- C8: update applies exactly the supplied fields — the result object keeps
its identity, every field absent from the payload keeps its previous value,
other objects and the connection list are untouched — and a dimension field
the object's kind does not declare is silently ignored: updating only
radius on a box returns success and leaves the entire store unchanged
except for the committed version counter. -/
theorem update_partial_frame :
    (∀ (st : Store) (id : String) (p : UpdateParams) (obj : SceneObject),
      lookupObj st.scene.objects id = some obj →
      colorCheckFails p.color = false →
      (update_object id p st).2 = .ok id ∧
      ∃ obj',
        lookupObj (update_object id p st).1.scene.objects id = some obj' ∧
        obj'.id = obj.id ∧
        (p.name = none → obj'.name = obj.name) ∧
        (p.position = none → obj'.position = obj.position) ∧
        (p.scale = none → obj'.scale = obj.scale) ∧
        (p.color = none → obj'.color = obj.color) ∧
        (p.width = none → p.height = none → p.depth = none → p.radius = none →
          obj'.geom = obj.geom) ∧
        (∀ k, k ≠ id →
          lookupObj (update_object id p st).1.scene.objects k =
            lookupObj st.scene.objects k) ∧
        (update_object id p st).1.scene.connections = st.scene.connections) ∧
    (∀ (st : Store) (id : String) (r w h d : ℚ) (obj : SceneObject),
      lookupObj st.scene.objects id = some obj →
      obj.geom = .box w h d →
      update_object id ⟨none, none, none, none, none, none, none, some r⟩ st =
        (commitState st, .ok id)) := by
  constructor
  · intro st id p obj hl hc
    refine ⟨by simp [update_object, hl, hc], ?_⟩
    refine ⟨⟨obj.id, p.name.getD obj.name, p.position.getD obj.position,
        p.scale.getD obj.scale, p.color.getD obj.color,
        applyDims obj.geom p.width p.height p.depth p.radius⟩,
      ?_, rfl, ?_, ?_, ?_, ?_, ?_, ?_, ?_⟩
    · simp [update_object, hl, hc, lookupObj_setKey_self]
    · intro h
      simp [h]
    · intro h
      simp [h]
    · intro h
      simp [h]
    · intro h
      simp [h]
    · intro h1 h2 h3 h4
      simp [h1, h2, h3, h4, applyDims_none]
    · intro k hk
      simp only [update_object, hl, hc, Bool.false_eq_true, if_false]
      exact lookupObj_setKey_ne _ _ _ _ hk
    · simp [update_object, hl, hc]
  · intro st id r w h d obj hl hg
    have hgeom : applyDims obj.geom none none none (some r) = obj.geom := by
      rw [hg]
      rfl
    have hobj :
        ({ id := obj.id, name := obj.name, position := obj.position,
           scale := obj.scale, color := obj.color,
           geom := applyDims obj.geom none none none (some r) } : SceneObject)
          = obj := by
      rw [hgeom]
    have hset := setKey_lookup_eq st.scene.objects id obj hl
    simp [update_object, hl, colorCheckFails, Option.getD, hobj, hset, commitState]

/-- Witness for C8: updating only the radius of the scenario's box leaves
the store unchanged apart from the version bump and reports success. -/
theorem update_partial_frame_witness :
    lookupObj scenStore1.scene.objects "obj_1" = some scenBox ∧
    scenBox.geom = .box 200 20 100 ∧
    update_object "obj_1" ⟨none, none, none, none, none, none, none, some 7⟩
        scenStore1 = (commitState scenStore1, .ok "obj_1") := by
  have hl : lookupObj scenStore1.scene.objects "obj_1" = some scenBox := by
    simp +decide [scenStore1, emptyStore, add_object, boxParams,
      colorCheckFails, mkId, commitState, setKey, lookupObj, defaultGeom,
      scenBox]
  exact ⟨hl, rfl,
    update_partial_frame.2 scenStore1 "obj_1" 7 200 20 100 scenBox hl rfl⟩

-- ---------------------------------------------------------------------------
-- C9
-- ---------------------------------------------------------------------------

/-- One exposed store command, for reasoning about operation traces. -/
inductive Op where
  | addOp (t : ObjKind) (p : AddParams)
  | updateOp (id : String) (p : UpdateParams)
  | deleteOp (id : String)
  | connectOp (fid : String) (fa : Face) (tid : String) (fb : Face)
  | clearOp
  | readOp
deriving DecidableEq

/-- Run one command against the store; the second component is the counter
value consumed by a successful add (the suffix of the identifier it
returned), none otherwise. -/
def stepOp : Op → Store → Store × Option Nat
  | .addOp t p, st =>
      ((add_object t p st).1,
        match (add_object t p st).2 with
        | .ok _ => some st.idCounter
        | .error _ => none)
  | .updateOp id p, st => ((update_object id p st).1, none)
  | .deleteOp id, st => ((delete_object id st).1, none)
  | .connectOp a fa b fb, st => ((connect a fa b fb st).1, none)
  | .clearOp, st => (clear_scene st, none)
  | .readOp, st => (st, none)

/-- The identifier suffixes allocated along a trace of commands. -/
def runAllocs : List Op → Store → List Nat
  | [], _ => []
  | op :: rest, st =>
      (stepOp op st).2.toList ++ runAllocs rest (stepOp op st).1

theorem stepOp_alloc_eq (op : Op) (st : Store) (n : Nat)
    (h : (stepOp op st).2 = some n) :
    n = st.idCounter ∧ (stepOp op st).1.idCounter = st.idCounter + 1 := by
  cases op with
  | addOp t p =>
    by_cases hc : colorCheckFails p.color
    · simp [stepOp, add_object, hc] at h
    · simp [stepOp, add_object, hc, commitState] at h ⊢
      exact h.symm
  | updateOp id p => simp [stepOp] at h
  | deleteOp id => simp [stepOp] at h
  | connectOp a fa b fb => simp [stepOp] at h
  | clearOp => simp [stepOp] at h
  | readOp => simp [stepOp] at h

theorem stepOp_idCounter_mono (op : Op) (st : Store) (h : op ≠ Op.clearOp) :
    st.idCounter ≤ (stepOp op st).1.idCounter := by
  cases op with
  | addOp t p =>
    by_cases hc : colorCheckFails p.color
    · simp [stepOp, add_object, hc]
    · simp [stepOp, add_object, hc, commitState]
  | updateOp id p =>
    cases hl : lookupObj st.scene.objects id with
    | none => simp [stepOp, update_object, hl]
    | some obj =>
      by_cases hc : colorCheckFails p.color
      · simp [stepOp, update_object, hl, hc]
      · simp [stepOp, update_object, hl, hc]
  | deleteOp id =>
    cases hl : lookupObj st.scene.objects id with
    | none => simp [stepOp, delete_object, hl]
    | some obj => simp [stepOp, delete_object, hl]
  | connectOp a fa b fb =>
    cases hl : lookupObj st.scene.objects a with
    | none => simp [stepOp, connect, hl]
    | some fo =>
      cases hl' : lookupObj st.scene.objects b with
      | none => simp [stepOp, connect, hl, hl']
      | some to_ => simp [stepOp, connect, hl, hl']
  | clearOp => exact absurd rfl h
  | readOp => simp [stepOp]

theorem runAllocs_lb (ops : List Op) :
    ∀ st : Store, Op.clearOp ∉ ops →
      ∀ n ∈ runAllocs ops st, st.idCounter ≤ n := by
  induction ops with
  | nil =>
    intro st _ n hn
    simp [runAllocs] at hn
  | cons op rest ih =>
    intro st hnotin n hn
    have hop : op ≠ Op.clearOp := fun he => hnotin (he ▸ List.mem_cons_self op rest)
    have hrest : Op.clearOp ∉ rest := fun hr => hnotin (List.mem_cons_of_mem _ hr)
    simp only [runAllocs, List.mem_append] at hn
    rcases hn with hn | hn
    · cases halloc : (stepOp op st).2 with
      | none => simp [halloc] at hn
      | some m =>
        simp [halloc] at hn
        have := (stepOp_alloc_eq op st m halloc).1
        omega
    · have h1 := ih (stepOp op st).1 hrest n hn
      have h2 := stepOp_idCounter_mono op st hop
      omega

theorem runAllocs_pairwise (ops : List Op) :
    ∀ st : Store, Op.clearOp ∉ ops →
      List.Pairwise (· < ·) (runAllocs ops st) := by
  induction ops with
  | nil =>
    intro st _
    simp [runAllocs]
  | cons op rest ih =>
    intro st hnotin
    have hop : op ≠ Op.clearOp := fun he => hnotin (he ▸ List.mem_cons_self op rest)
    have hrest : Op.clearOp ∉ rest := fun hr => hnotin (List.mem_cons_of_mem _ hr)
    simp only [runAllocs]
    cases halloc : (stepOp op st).2 with
    | none =>
      simpa [halloc] using ih (stepOp op st).1 hrest
    | some n =>
      simp only [halloc, Option.toList_some, List.singleton_append,
        List.pairwise_cons]
      refine ⟨?_, ih (stepOp op st).1 hrest⟩
      intro m hm
      have h1 := runAllocs_lb rest (stepOp op st).1 hrest m hm
      have h2 := (stepOp_alloc_eq op st n halloc).1
      have h3 := (stepOp_alloc_eq op st n halloc).2
      omega

/-- C9: identifier allocation is a sequential counter — a successful add
returns exactly the identifier formed from the current counter and bumps
the counter by one, so along any trace of commands containing no clear the
allocated suffixes are strictly increasing (each new one exceeds every
previously allocated one); deletion never frees a suffix (add, delete, add
allocates the consecutive distinct suffixes c and c+1); and clear resets
the counter to 1 so that the next successful add always returns obj_1. -/
theorem id_allocation_discipline :
    (∀ (ops : List Op) (st : Store), Op.clearOp ∉ ops →
      List.Pairwise (· < ·) (runAllocs ops st)) ∧
    (∀ (t : ObjKind) (p : AddParams) (st : Store) (id : String),
      (add_object t p st).2 = .ok id →
      id = mkId st.idCounter ∧
      (add_object t p st).1.idCounter = st.idCounter + 1) ∧
    (∀ st : Store, (clear_scene st).idCounter = 1) ∧
    (∀ (st : Store) (t : ObjKind) (p : AddParams) (id : String),
      (add_object t p (clear_scene st)).2 = .ok id → id = "obj_1") ∧
    (∀ (st : Store) (t t' : ObjKind) (p p' : AddParams) (id₁ : String),
      (add_object t p st).2 = .ok id₁ →
      (delete_object id₁ (add_object t p st).1).2 = .ok () ∧
      (delete_object id₁ (add_object t p st).1).1.idCounter = st.idCounter + 1 ∧
      (∀ id₂ : String,
        (add_object t' p' (delete_object id₁ (add_object t p st).1).1).2 = .ok id₂ →
        id₁ = mkId st.idCounter ∧ id₂ = mkId (st.idCounter + 1) ∧
        st.idCounter < st.idCounter + 1)) := by
  have hadd : ∀ (t : ObjKind) (p : AddParams) (st : Store) (id : String),
      (add_object t p st).2 = .ok id →
      id = mkId st.idCounter ∧
      (add_object t p st).1.idCounter = st.idCounter + 1 := by
    intro t p st id h
    by_cases hc : colorCheckFails p.color
    · simp [add_object, hc] at h
    · simp [add_object, hc, commitState] at h ⊢
      exact h.symm
  refine ⟨runAllocs_pairwise, hadd, fun st => rfl, ?_, ?_⟩
  · intro st t p id h
    have := (hadd t p (clear_scene st) id h).1
    simpa [clear_scene, commitState] using this
  · intro st t t' p p' id₁ h1
    obtain ⟨hid1, hcnt1⟩ := hadd t p st id₁ h1
    have hpresent :
        lookupObj (add_object t p st).1.scene.objects id₁ ≠ none := by
      by_cases hc : colorCheckFails p.color
      · simp [add_object, hc] at h1
      · subst hid1
        simp [add_object, hc, commitState, lookupObj_setKey_self]
    refine ⟨?_, ?_, ?_⟩
    · cases hl : lookupObj (add_object t p st).1.scene.objects id₁ with
      | none => exact absurd hl hpresent
      | some obj => simp [delete_object, hl]
    · cases hl : lookupObj (add_object t p st).1.scene.objects id₁ with
      | none => exact absurd hl hpresent
      | some obj => simp [delete_object, hl, hcnt1]
    · intro id₂ h2
      have hcnt2 :
          (delete_object id₁ (add_object t p st).1).1.idCounter =
            st.idCounter + 1 := by
        cases hl : lookupObj (add_object t p st).1.scene.objects id₁ with
        | none => exact absurd hl hpresent
        | some obj => simp [delete_object, hl, hcnt1]
      have := (hadd t' p' (delete_object id₁ (add_object t p st).1).1 id₂ h2).1
      rw [hcnt2] at this
      exact ⟨hid1, this, Nat.lt_succ_self _⟩

/-- Witness for C9: on the scenario run, the first add allocates obj_1 from
counter 1, deleting it and adding again allocates the distinct identifier
obj_2, and a clear followed by an add yields obj_1 again. -/
theorem id_allocation_discipline_witness :
    (add_object .box boxParams emptyStore).2 = .ok "obj_1" ∧
    "obj_1" = mkId emptyStore.idCounter ∧
    (add_object .box boxParams emptyStore).1.idCounter = emptyStore.idCounter + 1 ∧
    (∀ id₂ : String,
      (add_object .cylinder cylParams
          (delete_object "obj_1" (add_object .box boxParams emptyStore).1).1).2 =
        .ok id₂ →
      "obj_1" = mkId emptyStore.idCounter ∧ id₂ = mkId (emptyStore.idCounter + 1) ∧
      emptyStore.idCounter < emptyStore.idCounter + 1) ∧
    mkId (emptyStore.idCounter + 1) = "obj_2" ∧
    ("obj_1" : String) ≠ "obj_2" := by
  have h1 : (add_object .box boxParams emptyStore).2 = .ok "obj_1" := by
    simp +decide [add_object, boxParams, emptyStore, colorCheckFails, mkId]
  refine ⟨h1, ?_, ?_, ?_, by decide, by decide⟩
  · exact (id_allocation_discipline.2.1 .box boxParams emptyStore "obj_1" h1).1
  · exact (id_allocation_discipline.2.1 .box boxParams emptyStore "obj_1" h1).2
  · exact (id_allocation_discipline.2.2.2.2 emptyStore .box .cylinder boxParams
      cylParams "obj_1" h1).2.2

-- ---------------------------------------------------------------------------
-- C10
-- ---------------------------------------------------------------------------

/-- C10: update asserts existence before validating the color — for an
identifier absent from the objects record, update fails with the not-found
error whatever the payload (a malformed color included), leaving the state
untouched; an invalid-color failure can only arise when the object
exists. -/
theorem update_checks_existence_first :
    (∀ (st : Store) (id : String) (p : UpdateParams),
      lookupObj st.scene.objects id = none →
      update_object id p st = (st, .error .notFound)) ∧
    (∀ (st : Store) (id : String) (p : UpdateParams),
      (update_object id p st).2 = .error .invalidColor →
      (lookupObj st.scene.objects id).isSome = true) := by
  constructor
  · intro st id p h
    simp [update_object, h]
  · intro st id p h
    cases hl : lookupObj st.scene.objects id with
    | none => simp [update_object, hl] at h
    | some obj => simp

/-- Witness for C10: updating an absent identifier with a malformed color
payload fails with the not-found error (not the color error) and changes
nothing. -/
theorem update_checks_existence_first_witness :
    isHexColor "zzz" = false ∧
    update_object "ghost"
        ⟨none, none, none, some "zzz", none, none, none, none⟩ emptyStore =
      (emptyStore, .error .notFound) :=
  ⟨by decide,
    update_checks_existence_first.1 emptyStore "ghost"
      ⟨none, none, none, some "zzz", none, none, none, none⟩ rfl⟩

end Manifold
